import Mathlib

/-!
Shallow embedding of `src/index.js` of the `create-initializer` package: a
project-scaffolding orchestrator.  External collaborators (filesystem, git,
the prompt engine, the template renderer, the license generator, spawned
processes) are modelled as fields of an `Env` record holding their responses;
the orchestrator itself (`create` and its helper functions) is translated
function-by-function from the source.  Side effects are recorded in an
explicit trace (`List Effect`); a thrown/rejected error is an `Except.error`.
-/

set_option autoImplicit false

deriving instance DecidableEq for Except

namespace CreateInitializer

/-- JavaScript values as they occur in yargs answer objects and option
defaults: strings, numbers, booleans, and `undefined`. -/
inductive JsValue where
  | str (s : String)
  | num (n : Int)
  | bool (b : Bool)
  | undefined
deriving DecidableEq, Repr

/-- JS template-literal interpolation `${v}` (`undefined` prints as the
string `undefined`). -/
def jsToString : JsValue → String
  | .str s => s
  | .num n => toString n
  | .bool b => if b then "true" else "false"
  | .undefined => "undefined"

/-- JS truthiness of a value (empty string, `0`, `false`, `undefined` are
falsy). -/
def jsTruthy : JsValue → Bool
  | .str s => s != ""
  | .num n => n != 0
  | .bool b => b
  | .undefined => false

/-- A JS `Error` (or rejection value) as observed by the orchestrator:
`message`, the `exitCode` property set by `execa` failures, and the `code`
property set by Node `fs` errors (e.g. `"ENOENT"`). -/
structure JsError where
  message : String := ""
  exitCode : Option Int := none
  code : Option String := none
deriving DecidableEq, Repr

/-- Lookup in a JS object modelled as an insertion-ordered association list;
a later binding for the same key overrides an earlier one, exactly as object
spread `{ ...a, k: v }` does. -/
def jsGet {α : Type} (o : List (String × α)) (k : String) : Option α :=
  (o.reverse.find? (fun p => p.1 == k)).map (fun p => p.2)

/-- Node `path.basename`: last non-empty `/`-separated component. -/
def pathBasename (p : String) : String :=
  ((p.splitOn "/").filter (fun s => s != "")).getLastD ""

/-- A POSIX path is absolute when its first character is `/`. -/
def isAbsolute (p : String) : Bool :=
  p.data.head? == some '/'

/-- Node `path.resolve(base, p)` for one segment: an absolute `p` wins,
otherwise it is joined to `base`. -/
def pathResolve1 (base p : String) : String :=
  if isAbsolute p then p else base ++ "/" ++ p

/-- Node `path.resolve(base, a, b)` for two segments, right-to-left. -/
def pathResolve2 (base a b : String) : String :=
  if isAbsolute b then b else pathResolve1 base a ++ "/" ++ b

/-- The `user` section of the global git config (`gitconfig.get`). -/
structure GitUser where
  name : Option String := none
  email : Option String := none
deriving DecidableEq, Repr

/-- The yargs-interactive prompt policy strings `always` / `if-no-arg` /
`never`. -/
inductive Prompt where
  | always
  | ifNoArg
  | never
deriving DecidableEq, Repr

/-- One entry of the option schema handed to `yargsInteractive().interactive`
(the fields the source ever sets; an absent field is `none`). -/
structure OptionData where
  type : Option String := none
  describe : Option String := none
  default : JsValue := .undefined
  prompt : Option Prompt := none
  choices : Option (List String) := none
deriving DecidableEq, Repr

/-- The object returned by `makeLicenseSync` of `license.js`.  Per the
collaborator contract each of the three sections is optional; the source
reads `license.header`, `license.text` and `license.warranty`. -/
structure License where
  header : Option String := none
  text : Option String := none
  warranty : Option String := none
deriving DecidableEq, Repr

/-- The options object the source passes to `makeLicenseSync`. -/
structure LicenseArgs where
  year : Int
  project : String
  description : JsValue
  organization : String
deriving DecidableEq, Repr

/-- The `caveat` option: a string, a function (modelled by the value it
returns), nothing, or anything else (the `switch` default arm). -/
inductive Caveat where
  | cnone
  | cstr (s : String)
  | cfn (response : JsValue)
  | cother (truthy : Bool)
deriving DecidableEq, Repr

/-- Observable side effects of one `create` invocation, in order. -/
inductive Effect where
  | log (s : String)
  | chdir (dir : String)
  | spawned (command : String) (args : List String)
  | promptCall (schema : List (String × OptionData))
  | copyCall (projectDir : String) (templateDir : String)
      (view : List (String × JsValue))
  | writeFile (file : String) (contents : String)
  | execaCall (cmd : String) (cwd : String)
  | hookRun
deriving DecidableEq, Repr

/-- Result of one pipeline stage: continue, return early from `create`
without an error (the `return` on git exit code 127), or throw. -/
inductive StageResult where
  | next
  | stop
  | fail (e : JsError)
deriving DecidableEq, Repr

/-- Responses of every external collaborator during one invocation.  A field
is a function where the source passes the collaborator an argument. -/
structure Env where
  /-- `process.argv[2]`, the first CLI positional argument. -/
  argv2 : Option String := none
  /-- `process.cwd()` at entry. -/
  cwd : String := "/"
  /-- `new Date().getFullYear()`. -/
  year : Int := 0
  /-- `fs.readdir`: entry list, or an error carrying `err.code`. -/
  readdir : String → Except JsError (List String) :=
    fun _ => .error { code := some "ENOENT" }
  /-- `gitconfig.get({location:'global'})`: its `user` section (`none` when
  the config has no `user`), or a failure. -/
  gitconfigGlobal : Except JsError (Option GitUser) := .ok none
  /-- `getAvailableTemplates(templateRoot, templatePrefix)` of
  `./template.js`. -/
  getAvailableTemplates : String → String → List String := fun _ _ => []
  /-- `availableLicenses()` of `license.js`. -/
  availableLicenses : List String := []
  /-- The prompt engine: the resolved answer object it returns for a given
  option schema. -/
  prompt : List (String × OptionData) → List (String × JsValue) := fun _ => []
  /-- `fs.stat` (only its success/failure is ever used). -/
  stat : String → Except JsError Unit := fun _ => .ok ()
  /-- The template renderer `copy(...)` of `./template.js`. -/
  copyResult : Except JsError Unit := .ok ()
  /-- `makeLicenseSync(args.license, {...})` of `license.js`. -/
  makeLicense : JsValue → LicenseArgs → Except JsError License :=
    fun _ _ => .error {}
  /-- `execa('yarnpkg', ['--version'])`. -/
  yarnVersion : Except JsError Unit := .ok ()
  /-- Exit code delivered on the `close` event of `spawn(command, args)`. -/
  spawnClose : String → List String → Int := fun _ _ => 0
  /-- `execa('git init', { shell: true, cwd: root })`. -/
  gitInit : String → Except JsError Unit := fun _ => .ok ()

/-- The caller-supplied options of `create(appName, options)`.  A JS field
that may be absent is an `Option`; `after` is the caller hook, modelled by
the outcome of invoking it. -/
structure CreateOptions where
  templateRoot : String
  templatePrefix : Option String := none
  promptForTemplate : Option Bool := none
  defaultTemplate : Option String := none
  skipLicense : Bool := false
  skipGit : Bool := false
  modifyName : Option (String → String) := none
  defaultPath : Option String := none
  extra : List (String × OptionData) := []
  after : Option (Except JsError Unit) := none
  caveat : Caveat := .cnone

/-- Source `getGitUser`: the global git config `user`, degrading to `{}` on
a missing section or any error. -/
def getGitUser (env : Env) : GitUser :=
  match env.gitconfigGlobal with
  | .ok (some u) => u
  | .ok none => {}
  | .error _ => {}

/-- Source `IsYarnAvailable`: `execa('yarnpkg', ['--version'])` succeeded. -/
def useYarnOf (env : Env) : Bool :=
  match env.yarnVersion with
  | .ok _ => true
  | .error _ => false

/-- Source `getContact`: `author` followed by ` <email>` when `email` is
truthy, via template-literal interpolation. -/
def getContact (author email : JsValue) : String :=
  jsToString author ++ (if jsTruthy email then " <" ++ jsToString email ++ ">" else "")

/-- Source `isEmptyDir`: directory listing is empty; a nonexistent directory
(`ENOENT`) counts as empty; any other `readdir` error is rethrown. -/
def isEmptyDir (env : Env) (dirname : String) : Except JsError Bool :=
  match env.readdir dirname with
  | .ok entries => .ok (entries.length == 0)
  | .error err => if err.code == some "ENOENT" then .ok true else .error err

/-- Source `exists(filePath, baseDir)`: `fs.stat` succeeds; `ENOENT` gives
`false`; any other error is rethrown. -/
def existsFn (env : Env) (filePath baseDir : String) : Except JsError Bool :=
  match env.stat (pathResolve1 baseDir filePath) with
  | .ok _ => .ok true
  | .error err => if err.code == some "ENOENT" then .ok false else .error err

/-- Source `spawnPromise`: spawn and wait for `close`; exit code 0 resolves,
any other code rejects with the code itself. -/
def spawnPromise (env : Env) (command : String) (args : List String) :
    List Effect × Except Int Int :=
  let code := env.spawnClose command args
  ([Effect.spawned command args], if code = 0 then .ok code else .error code)

/-- Source `installDeps`: yarn takes `['install', '--cwd', rootDir]` with no
directory change; npm takes `['install']` after `process.chdir(rootDir)`.  A
spawn rejection is wrapped as `installDeps failed: <code>`. -/
def installDeps (env : Env) (rootDir : String) (useYarn : Bool) :
    List Effect × StageResult :=
  let command := if useYarn then "yarnpkg" else "npm"
  let args := if useYarn then ["install", "--cwd", rootDir] else ["install"]
  let pre : List Effect := if useYarn then [] else [Effect.chdir rootDir]
  let s := spawnPromise env command args
  (pre ++ s.1,
    match s.2 with
    | .ok _ => .next
    | .error code => .fail { message := "installDeps failed: " ++ toString code })

/-- Source `installNpmPackage` (the package-installer callable handed to the
caller hook): yarn takes `['--cwd', projectDir, 'add', pkg]` with no
directory change; npm takes `['install', '-D', pkg]` after
`process.chdir(projectDir)`; non-zero exit rejects with a message string. -/
def installNpmPackage (env : Env) (projectDir pkgName : String)
    (useYarn : Bool) : List Effect × StageResult :=
  let command := if useYarn then "yarnpkg" else "npm"
  let args := if useYarn then ["--cwd", projectDir, "add", pkgName]
              else ["install", "-D", pkgName]
  let pre : List Effect := if useYarn then [] else [Effect.chdir projectDir]
  let code := env.spawnClose command args
  (pre ++ [Effect.spawned command args],
    if code = 0 then .next
    else .fail { message := "installDeps failed: " ++ command ++ " " ++
                   String.intercalate " " args })

/-- The working directory after a list of effects, starting from `c0`: each
`chdir` replaces it (`process.chdir` is the only mutation of the process
working directory in the source). -/
def cwdAfter (c0 : String) (t : List Effect) : String :=
  t.foldl (fun c e => match e with | .chdir d => d | _ => c) c0

/-- Source `getYargsOptions`: the option schema, a fixed base object merged
(last wins) with the caller-supplied `extraOptions`.  The base `prompt`
policies are driven by `skipLicense` and, for `template`, by whether more
than one template is available and the caller opted in to prompting. -/
def getYargsOptions (env : Env) (templateRoot : String)
    ( templatePrefix : String) (promptForTemplate : Bool)
    (defaultTemplate : String) (skipLicense : Bool := false)
    (extraOptions : List (String × OptionData) := []) :
    List (String × OptionData) :=
  let gitUser := getGitUser env
  let availableTemplates := env.getAvailableTemplates templateRoot templatePrefix
  let isMultipleTemplates : Bool := decide (availableTemplates.length > 1)
  let askForTemplate : Bool := isMultipleTemplates && promptForTemplate
  [ ("interactive", { default := .bool true }),
    ("description",
      { type := some "input", describe := some "description",
        default := .str "description",
        prompt := some (if skipLicense then .never else .ifNoArg) }),
    ("author",
      { type := some "input", describe := some "author name",
        default := match gitUser.name with | some s => .str s | none => .undefined,
        prompt := some (if skipLicense then .never else .ifNoArg) }),
    ("email",
      { type := some "input", describe := some "author email",
        default := match gitUser.email with | some s => .str s | none => .undefined,
        prompt := some (if skipLicense then .never else .ifNoArg) }),
    ("template",
      { type := some "list", describe := some "template",
        default := .str defaultTemplate,
        prompt := some (if askForTemplate then .ifNoArg else .never),
        choices := some availableTemplates }),
    ("license",
      { type := some "list", describe := some "license",
        choices := some (env.availableLicenses ++ ["UNLICENSED"]),
        prompt := some (if skipLicense then .never else .ifNoArg) }) ]
  ++ extraOptions

/-- The schema `create` hands to the prompt engine: `getYargsOptions` with
the destructuring defaults of the source (`templatePrefix = ''`,
`promptForTemplate = false`, `defaultTemplate = 'default'`) and the literal
`true` for `skipLicense` (independent of `options.skipLicense`). -/
def createSchema (env : Env) (options : CreateOptions) :
    List (String × OptionData) :=
  getYargsOptions env options.templateRoot (options.templatePrefix.getD "")
    (options.promptForTemplate.getD false) (options.defaultTemplate.getD "default")
    true options.extra

/-- The resolved answer object returned by the prompt engine. -/
def argsOf (env : Env) (options : CreateOptions) : List (String × JsValue) :=
  env.prompt (createSchema env options)

/-- Source lines 155-160: `name` is the basename of the cwd when the first
argument is `"."`, else `modifyName(firstArg)` when supplied, else the
argument itself. -/
def nameOf (env : Env) (options : CreateOptions) (firstArg : String) : String :=
  if firstArg == "." then pathBasename env.cwd
  else
    match options.modifyName with
    | some f => f firstArg
    | none => firstArg

/-- Source lines 161-165: `projectDir` is the cwd when the first argument is
`"."`, else `path.resolve` of `` `${options.defaultPath}/${name}` `` when
`defaultPath` is supplied, else `path.resolve(name)`. -/
def projectDirOf (env : Env) (options : CreateOptions) (firstArg : String) :
    String :=
  if firstArg == "." then env.cwd
  else
    match options.defaultPath with
    | some dp => pathResolve1 env.cwd (dp ++ "/" ++ nameOf env options firstArg)
    | none => pathResolve1 env.cwd (nameOf env options firstArg)

/-- Source line 187: `path.resolve(templateRoot, templatePrefix + template)`
with `args.template` interpolated as a string. -/
def templateDirOf (env : Env) (options : CreateOptions) : String :=
  pathResolve2 env.cwd options.templateRoot
    ((options.templatePrefix.getD "") ++
      jsToString ((jsGet (argsOf env options) "template").getD .undefined))

/-- The regex test `arg[0].match(/^[^$_]/)`: the key has a first character
and it is neither `$` nor `_` (an empty key fails the match). -/
def jsRegexTest (k : String) : Bool :=
  match k.data with
  | [] => false
  | c :: _ => c != '$' && c != '_'

/-- Source lines 195-203: keep the entries whose key passes the regex and is
not `interactive` or `template`. -/
def filterArgs (args : List (String × JsValue)) : List (String × JsValue) :=
  args.filter (fun a =>
    jsRegexTest a.1 && !((["interactive", "template"] : List String).contains a.1))

/-- Source lines 205-210: the view is the filtered answers with `name`,
`year` and `contact` spread on top (overriding on key collision). -/
def buildView (args : List (String × JsValue)) (name : String) (year : Int)
    (contact : String) : List (String × JsValue) :=
  filterArgs args ++
    [("name", .str name), ("year", .num year), ("contact", .str contact)]

/-- Source line 189 (and again line 227): `getContact(args.author,
args.email)`. -/
def contactOf (env : Env) (options : CreateOptions) : String :=
  getContact ((jsGet (argsOf env options) "author").getD .undefined)
    ((jsGet (argsOf env options) "email").getD .undefined)

/-- The view `create` passes to the renderer. -/
def viewOf (env : Env) (options : CreateOptions) (firstArg : String) :
    List (String × JsValue) :=
  buildView (argsOf env options) (nameOf env options firstArg) env.year
    (contactOf env options)

/-- Source lines 223-228: the options object passed to `makeLicenseSync`. -/
def licenseArgsOf (env : Env) (options : CreateOptions) (firstArg : String) :
    LicenseArgs :=
  { year := env.year,
    project := nameOf env options firstArg,
    description := (jsGet (argsOf env options) "description").getD .undefined,
    organization := contactOf env options }

/-- Source line 229: `` `${license.header && license.header || ''}${license.text}${license.warranty && license.warranty || ''}` ``.
Header and warranty are guarded (`x && x || ''` is `''` for an absent or
empty section); the body is interpolated unguarded, so an absent body
contributes the literal string `undefined`. -/
def licenseTextOf (license : License) : String :=
  license.header.getD "" ++
    (match license.text with | some s => s | none => "undefined") ++
    license.warranty.getD ""

/-- Source line 167: announcement printed before the destination check
(chalk coloring is modelled as the identity on the text). -/
def announceStage (projectDir : String) : List Effect × StageResult :=
  ([Effect.log ("\nNew project will be created in " ++ projectDir ++ ".\n")],
    .next)

/-- Source lines 169-171: fatal `not empty` failure unless the destination
is empty or nonexistent; a non-`ENOENT` `readdir` error propagates. -/
def destCheckStage (env : Env) (projectDir : String) :
    List Effect × StageResult :=
  match isEmptyDir env projectDir with
  | .ok true => ([], .next)
  | .ok false => ([], .fail { message := projectDir ++ " is not empty." })
  | .error e => ([], .fail e)

/-- Source lines 174-184: the schema is assembled and handed to the prompt
engine. -/
def promptStage (env : Env) (options : CreateOptions) :
    List Effect × StageResult :=
  ([Effect.promptCall (createSchema env options)], .next)

/-- Source lines 191-193: fatal `No template found` when the chosen template
directory does not exist. -/
def templateCheckStage (env : Env) (templateDir : String) :
    List Effect × StageResult :=
  match existsFn env templateDir "/" with
  | .ok true => ([], .next)
  | .ok false => ([], .fail { message := "No template found" })
  | .error e => ([], .fail e)

/-- Source lines 213-218: log, then delegate to the renderer; a renderer
failure is fatal. -/
def renderStage (env : Env) (projectDir templateDir : String)
    (view : List (String × JsValue)) : List Effect × StageResult :=
  ([Effect.log ("\nCreating a new project in " ++ projectDir ++ ".\n"),
    Effect.copyCall projectDir templateDir view],
    match env.copyResult with
    | .ok _ => .next
    | .error e => .fail e)

/-- Source lines 220-234: license generation, skipped when
`options.skipLicense`; the whole block is inside `try`/`catch`, so a
generator failure produces nothing and never aborts. -/
def licenseStage (env : Env) (skipLicense : Bool) (licenseArg : JsValue)
    (largs : LicenseArgs) (projectDir : String) : List Effect × StageResult :=
  if skipLicense then ([], .next)
  else
    match env.makeLicense licenseArg largs with
    | .ok license =>
        ([Effect.writeFile (pathResolve1 projectDir "LICENSE")
            (licenseTextOf license)], .next)
    | .error _ => ([], .next)

/-- Source lines 237-241: install dependencies iff `package.json` exists in
the rendered project; a non-`ENOENT` stat error propagates. -/
def installStage (env : Env) (projectDir : String) (useYarn : Bool) :
    List Effect × StageResult :=
  match existsFn env "package.json" projectDir with
  | .ok true =>
      let s := installDeps env projectDir useYarn
      (Effect.log "Installing dependencies." :: s.1, s.2)
  | .ok false => ([], .next)
  | .error e => ([], .fail e)

/-- Source lines 243-252: `git init` unless `options.skipGit`; on failure,
exit code 127 makes `create` return early (`.stop`); any other failure is
rethrown. -/
def gitStage (env : Env) (skipGit : Bool) (projectDir : String) :
    List Effect × StageResult :=
  if skipGit then ([], .next)
  else
    match env.gitInit projectDir with
    | .ok _ =>
        ([Effect.execaCall "git init" projectDir,
          Effect.log "\nInitialized a git repository"], .next)
    | .error err =>
        ([Effect.execaCall "git init" projectDir],
          if err.exitCode = some 127 then .stop else .fail err)

/-- Source lines 299-302: the caller hook, when supplied, is awaited; its
rejection propagates. -/
def hookStage (after : Option (Except JsError Unit)) :
    List Effect × StageResult :=
  match after with
  | none => ([], .next)
  | some (.ok _) => ([Effect.hookRun], .next)
  | some (.error e) => ([Effect.hookRun], .fail e)

/-- Source line 304: the success confirmation. -/
def successStage (name : String) : List Effect × StageResult :=
  ([Effect.log ("\nSuccess! Created " ++ name ++ ".")], .next)

/-- Source lines 306-321: a truthy string caveat is printed; a function
caveat is invoked and its truthy result printed; anything else is a no-op. -/
def caveatStage (caveat : Caveat) : List Effect × StageResult :=
  (match caveat with
   | .cnone => []
   | .cstr s => if s = "" then [] else [Effect.log s]
   | .cfn response => if jsTruthy response then [Effect.log (jsToString response)] else []
   | .cother _ => [], .next)

/-- Sequential composition of stage outcomes: a stage runs only while the
accumulated result is `next`; `stop` and `fail` short-circuit. -/
def seqF (a b : List Effect × StageResult) : List Effect × StageResult :=
  match a.2 with
  | .next => (a.1 ++ b.1, b.2)
  | _ => a

/-- Run stages strictly in order with short-circuiting. -/
def pipeline (stages : List (List Effect × StageResult)) :
    List Effect × StageResult :=
  stages.foldl seqF ([], .next)

/-- A `fail` pipeline outcome is a rejection of `create`; `next` (normal
completion) and `stop` (the git exit-code-127 early `return`) both resolve
without error. -/
def finish : List Effect × StageResult → List Effect × Except JsError Unit
  | (t, .fail e) => (t, Except.error e)
  | (t, _) => (t, Except.ok ())

/-- Source `create(appName, options)`: usage line when the positional
argument is absent; otherwise the stage pipeline in source order. -/
def create (env : Env) (appName : String) (options : CreateOptions) :
    List Effect × Except JsError Unit :=
  match env.argv2 with
  | none => ([Effect.log ("Usage: " ++ appName ++ " <project_name> [args]")],
      Except.ok ())
  | some firstArg =>
      finish (pipeline
        [announceStage (projectDirOf env options firstArg),
         destCheckStage env (projectDirOf env options firstArg),
         promptStage env options,
         templateCheckStage env (templateDirOf env options),
         renderStage env (projectDirOf env options firstArg)
           (templateDirOf env options) (viewOf env options firstArg),
         licenseStage env options.skipLicense
           ((jsGet (argsOf env options) "license").getD .undefined)
           (licenseArgsOf env options firstArg)
           (projectDirOf env options firstArg),
         installStage env (projectDirOf env options firstArg) (useYarnOf env),
         gitStage env options.skipGit (projectDirOf env options firstArg),
         hookStage options.after,
         successStage (nameOf env options firstArg),
         caveatStage options.caveat])

/-! Concrete test environments used by counterexamples and witnesses. -/

/-- Environment where every stage up to version-control init succeeds and
`git init` fails with exit code 127 (tool not found). -/
def envGit127 : Env :=
  { argv2 := some "proj", cwd := "/home",
    readdir := fun _ => .error { code := some "ENOENT" },
    stat := fun _ => .ok (),
    gitInit := fun _ => .error { exitCode := some 127 } }

/-- Caller options for the git-127 scenario: a hook and a caveat are
supplied, license generation is skipped. -/
def optsGit127 : CreateOptions :=
  { templateRoot := "/tpl", skipLicense := true,
    after := some (.ok ()), caveat := .cstr "note" }

/-- Environment where every stage succeeds and the hook is reached. -/
def envHook : Env :=
  { argv2 := some "proj", cwd := "/home",
    readdir := fun _ => .error { code := some "ENOENT" },
    stat := fun _ => .ok () }

/-- Caller options whose hook rejects with the error `boom`. -/
def optsHookBoom : CreateOptions :=
  { templateRoot := "/tpl", skipLicense := true, skipGit := true,
    after := some (.error { message := "boom" }), caveat := .cstr "note" }

/-! Helper lemmas about the pipeline combinators and object lookup. -/

theorem seqF_of_next (a b : List Effect × StageResult) (h : a.2 = .next) :
    seqF a b = (a.1 ++ b.1, b.2) := by
  simp [seqF, h]

theorem foldl_seqF_frozen (l : List (List Effect × StageResult))
    (acc : List Effect × StageResult) (h : acc.2 ≠ .next) :
    l.foldl seqF acc = acc := by
  induction l with
  | nil => rfl
  | cons s l ih =>
      have hs : seqF acc s = acc := by
        unfold seqF
        match hr : acc.2 with
        | .next => exact absurd hr h
        | .stop => rfl
        | .fail e => rfl
      rw [List.foldl_cons, hs, ih]

theorem foldl_seqF_step (t : List Effect) (s : List Effect × StageResult)
    (rest : List (List Effect × StageResult)) (h : s.2 = .next) :
    List.foldl seqF (t, .next) (s :: rest) =
      List.foldl seqF (t ++ s.1, .next) rest := by
  rw [List.foldl_cons, seqF_of_next _ _ rfl, h]

theorem foldl_seqF_stop (t : List Effect) (s : List Effect × StageResult)
    (rest : List (List Effect × StageResult)) (h : s.2 = .stop) :
    List.foldl seqF (t, .next) (s :: rest) = (t ++ s.1, .stop) := by
  rw [List.foldl_cons, seqF_of_next _ _ rfl, h,
    foldl_seqF_frozen _ _ (by simp)]

theorem foldl_seqF_fail (t : List Effect) (s : List Effect × StageResult)
    (rest : List (List Effect × StageResult)) (e : JsError)
    (h : s.2 = .fail e) :
    List.foldl seqF (t, .next) (s :: rest) = (t ++ s.1, .fail e) := by
  rw [List.foldl_cons, seqF_of_next _ _ rfl, h,
    foldl_seqF_frozen _ _ (by simp)]

theorem destCheckStage_fst (env : Env) (projectDir : String) :
    (destCheckStage env projectDir).1 = [] := by
  unfold destCheckStage
  rcases h : isEmptyDir env projectDir with e | b
  · simp [h]
  · cases b <;> simp [h]

theorem templateCheckStage_fst (env : Env) (templateDir : String) :
    (templateCheckStage env templateDir).1 = [] := by
  unfold templateCheckStage
  rcases h : existsFn env templateDir "/" with e | b
  · simp [h]
  · cases b <;> simp [h]

theorem licenseStage_snd (env : Env) (skipLicense : Bool)
    (licenseArg : JsValue) (largs : LicenseArgs) (projectDir : String) :
    (licenseStage env skipLicense licenseArg largs projectDir).2 = .next := by
  unfold licenseStage
  cases skipLicense
  · rcases h : env.makeLicense licenseArg largs with e | l <;> simp [h]
  · simp

theorem hookRun_not_mem_licenseStage (env : Env) (skipLicense : Bool)
    (licenseArg : JsValue) (largs : LicenseArgs) (projectDir : String) :
    Effect.hookRun ∉ (licenseStage env skipLicense licenseArg largs projectDir).1 := by
  unfold licenseStage
  cases skipLicense
  · rcases h : env.makeLicense licenseArg largs with e | l <;> simp [h]
  · simp

theorem hookRun_not_mem_installStage (env : Env) (projectDir : String)
    (useYarn : Bool) :
    Effect.hookRun ∉ (installStage env projectDir useYarn).1 := by
  unfold installStage
  rcases h : existsFn env "package.json" projectDir with e | b
  · simp [h]
  · cases b <;> cases useYarn <;> simp [h, installDeps, spawnPromise]

theorem find?_filter_key {α : Type} (p : String → Bool) (k : String)
    (l : List (String × α)) :
    (l.filter (fun a => p a.1)).find? (fun a => a.1 == k) =
      if p k then l.find? (fun a => a.1 == k) else none := by
  induction l with
  | nil => simp
  | cons a l ih =>
      by_cases hk : a.1 = k
      · subst hk
        by_cases hpa : p a.1 <;>
          simp [List.filter_cons, hpa, List.find?_cons, ih]
      · have hbk : (a.1 == k) = false := beq_false_of_ne hk
        by_cases hpa : p a.1 <;>
          simp [List.filter_cons, hpa, List.find?_cons, hbk, ih]

theorem jsGet_filter {α : Type} (p : String → Bool) (l : List (String × α))
    (k : String) :
    jsGet (l.filter (fun a => p a.1)) k = if p k then jsGet l k else none := by
  unfold jsGet
  rw [← List.filter_reverse, find?_filter_key]
  split <;> simp

theorem jsGet_append_nomatch {α : Type} (l₁ l₂ : List (String × α))
    (k : String) (h : ∀ p ∈ l₂, p.1 ≠ k) :
    jsGet (l₁ ++ l₂) k = jsGet l₁ k := by
  unfold jsGet
  rw [List.reverse_append, List.find?_append]
  have hnone : l₂.reverse.find? (fun p => p.1 == k) = none := by
    rw [List.find?_eq_none]
    intro x hx
    simpa using h x (List.mem_reverse.mp hx)
  rw [hnone, Option.none_or]

/-! The claims. -/

/-- C7: when the first CLI positional argument is absent, `create` prints a
usage line and returns normally, and no later stage of the pipeline runs:
the whole invocation is exactly one log effect and a non-error result. -/
theorem c7_usage_line (env : Env) (appName : String) (options : CreateOptions)
    (h : env.argv2 = none) :
    create env appName options =
      ([Effect.log ("Usage: " ++ appName ++ " <project_name> [args]")],
        Except.ok ()) := by
  simp [create, h]

/-- C7 witness: a concrete invocation with no positional argument. -/
theorem c7_witness :
    create { argv2 := none } "myapp" { templateRoot := "/t" } =
      ([Effect.log "Usage: myapp <project_name> [args]"], Except.ok ()) := by
  simpa using c7_usage_line { argv2 := none } "myapp" { templateRoot := "/t" } rfl

/-- C10: when the first positional argument is `"."`, the caller-supplied
name transform is never applied and `defaultPath` is ignored: for every
`modifyName` function `f` and every `defaultPath`, `name` is exactly the
basename of the current working directory and `projectDir` is exactly the
current working directory. -/
theorem c10_dot_ignores_modifyName (env : Env) (options : CreateOptions)
    (f : String → String) (dp : String) :
    nameOf env { options with modifyName := some f, defaultPath := some dp } "."
        = pathBasename env.cwd ∧
    projectDirOf env { options with modifyName := some f, defaultPath := some dp } "."
        = env.cwd ∧
    nameOf env options "." = pathBasename env.cwd ∧
    projectDirOf env options "." = env.cwd := by
  refine ⟨rfl, rfl, rfl, rfl⟩

/-- C6: shape of every dependency install (both `installDeps` and the
`installNpmPackage` callable handed to the hook).  With yarn, the spawned
arguments carry `projectDir` as the value directly following the `--cwd`
flag and the working directory is unchanged afterward; with npm, no spawned
argument list contains `--cwd` and the working directory equals `projectDir`
afterward. -/
theorem c6_install_cwd_discipline (env : Env) (rootDir pkgName c0 : String) :
    (∀ cmd args, Effect.spawned cmd args ∈ (installDeps env rootDir true).1 →
        ∃ i, args.get? i = some "--cwd" ∧ args.get? (i + 1) = some rootDir) ∧
    cwdAfter c0 (installDeps env rootDir true).1 = c0 ∧
    (∀ cmd args, Effect.spawned cmd args ∈ (installDeps env rootDir false).1 →
        "--cwd" ∉ args) ∧
    cwdAfter c0 (installDeps env rootDir false).1 = rootDir ∧
    (∀ cmd args,
        Effect.spawned cmd args ∈ (installNpmPackage env rootDir pkgName true).1 →
        ∃ i, args.get? i = some "--cwd" ∧ args.get? (i + 1) = some rootDir) ∧
    cwdAfter c0 (installNpmPackage env rootDir pkgName true).1 = c0 ∧
    (pkgName ≠ "--cwd" → ∀ cmd args,
        Effect.spawned cmd args ∈ (installNpmPackage env rootDir pkgName false).1 →
        "--cwd" ∉ args) ∧
    cwdAfter c0 (installNpmPackage env rootDir pkgName false).1 = rootDir := by
  refine ⟨?_, ?_, ?_, ?_, ?_, ?_, ?_, ?_⟩
  · intro cmd args hmem
    simp [installDeps, spawnPromise] at hmem
    obtain ⟨-, ha⟩ := hmem
    subst ha
    exact ⟨1, rfl, rfl⟩
  · simp [installDeps, spawnPromise, cwdAfter]
  · intro cmd args hmem
    simp [installDeps, spawnPromise] at hmem
    obtain ⟨-, ha⟩ := hmem
    subst ha
    decide
  · simp [installDeps, spawnPromise, cwdAfter]
  · intro cmd args hmem
    simp [installNpmPackage] at hmem
    obtain ⟨-, ha⟩ := hmem
    subst ha
    exact ⟨0, rfl, rfl⟩
  · simp [installNpmPackage, cwdAfter]
  · intro hpkg cmd args hmem
    simp [installNpmPackage] at hmem
    obtain ⟨-, ha⟩ := hmem
    subst ha
    intro hmem2
    simp at hmem2
    exact hpkg hmem2.symm
  · simp [installNpmPackage, cwdAfter]

/-- C6 witness: the yarn-mode install of a concrete project directory has
`--cwd` immediately followed by that directory in its spawn arguments. -/
theorem c6_witness :
    ∃ i, (["install", "--cwd", "/home/proj"] : List String).get? i = some "--cwd" ∧
      (["install", "--cwd", "/home/proj"] : List String).get? (i + 1) =
        some "/home/proj" :=
  (c6_install_cwd_discipline {} "/home/proj" "left-pad" "/start").1
    "yarnpkg" ["install", "--cwd", "/home/proj"] (by decide)

/-- C5 counterexample: the claim states each absent section of the generated
license contributes the empty string to the written text.  For a license
whose body section is absent, the source interpolates `license.text`
unguarded, so the written text is `HundefinedW`, not the claimed
concatenation `H ++ "" ++ W = HW`. -/
theorem c5_counterexample :
    licenseTextOf { header := some "H", text := none, warranty := some "W" } ≠
      "H" ++ "" ++ "W" := by
  decide

/-- C5 amended: whenever the generated license has a body section, the text
written to the LICENSE file is exactly `header ++ body ++ warranty` where an
absent header or warranty contributes the empty string; in particular with
all three sections present the output is exactly their concatenation in that
order.  (An absent body would instead contribute the literal string
`undefined`, see the counterexample.) -/
theorem c5_license_concatenation (env : Env) (licenseArg : JsValue)
    (largs : LicenseArgs) (projectDir : String) (h w : Option String)
    (t : String)
    (hmk : env.makeLicense licenseArg largs =
      .ok { header := h, text := some t, warranty := w }) :
    (licenseStage env false licenseArg largs projectDir).1 =
      [Effect.writeFile (pathResolve1 projectDir "LICENSE")
        (h.getD "" ++ t ++ w.getD "")] := by
  simp [licenseStage, hmk, licenseTextOf]

/-- C5 witness: a concrete generator response with all three sections
present is written as the exact concatenation. -/
theorem c5_witness :
    (licenseStage
        { makeLicense := fun _ _ =>
            .ok { header := some "HEAD ", text := some "BODY ", warranty := some "WARranty" } }
        false (JsValue.str "MIT")
        { year := 2026, project := "p", description := JsValue.str "d",
          organization := "o" }
        "/proj").1 =
      [Effect.writeFile "/proj/LICENSE" "HEAD BODY WARranty"] := by
  rw [c5_license_concatenation
    { makeLicense := fun _ _ =>
        .ok { header := some "HEAD ", text := some "BODY ", warranty := some "WARranty" } }
    (JsValue.str "MIT")
    { year := 2026, project := "p", description := JsValue.str "d",
      organization := "o" }
    "/proj" (some "HEAD ") (some "WARranty") "BODY " rfl]
  decide

/-- C4: when the destination directory exists and is non-empty, `create`
fails with the `not empty` error and the only effect performed is the
announcement log: nothing is rendered, written, spawned or changed in the
destination before the failure.  A nonexistent (`ENOENT`) or empty
destination passes the check and the pipeline continues. -/
theorem c4_dest_not_empty_fails_early (env : Env) (appName : String)
    (options : CreateOptions) (firstArg : String) (entries : List String)
    (hargv : env.argv2 = some firstArg)
    (hrd : env.readdir (projectDirOf env options firstArg) = .ok entries)
    (hne : entries ≠ []) :
    create env appName options =
      ([Effect.log ("\nNew project will be created in " ++
          projectDirOf env options firstArg ++ ".\n")],
        Except.error
          { message := projectDirOf env options firstArg ++ " is not empty." }) ∧
    (∀ dir, (env.readdir dir = .ok [] ∨
        (∃ e, env.readdir dir = .error e ∧ e.code = some "ENOENT")) →
      (destCheckStage env dir).2 = .next) := by
  constructor
  · have hdc : destCheckStage env (projectDirOf env options firstArg) =
        ([], .fail { message := projectDirOf env options firstArg ++ " is not empty." }) := by
      have hlen : (entries.length == 0) = false := by
        simpa using hne
      simp [destCheckStage, isEmptyDir, hrd, hlen]
    simp only [create, hargv]
    unfold pipeline
    rw [foldl_seqF_step _ _ _ rfl,
      foldl_seqF_fail _ _ _ _ (by rw [hdc]), hdc]
    simp [finish, announceStage]
  · intro dir hdir
    rcases hdir with hok | ⟨e, herr, hcode⟩
    · simp [destCheckStage, isEmptyDir, hok]
    · simp [destCheckStage, isEmptyDir, herr, hcode]

/-- C1 counterexample: the claim states that after a version-control-init
failure with exit code 127 the pipeline still reaches Success, with the
caller hook, the caveat and the success confirmation all still executing.
In `envGit127` / `optsGit127` every earlier stage succeeds, a hook and a
caveat are supplied, and `git init` fails with exit code 127: `create` does
resolve without error, but the hook never runs and neither the success
confirmation nor the caveat is printed — the source `return`s early. -/
theorem c1_counterexample :
    (create envGit127 "app" optsGit127).2 = Except.ok () ∧
    Effect.hookRun ∉ (create envGit127 "app" optsGit127).1 ∧
    Effect.log "\nSuccess! Created proj." ∉ (create envGit127 "app" optsGit127).1 ∧
    Effect.log "note" ∉ (create envGit127 "app" optsGit127).1 := by
  decide

/-- C1 amended: if version-control initialization fails with exit code 127
(tool not found), `create` does not raise — it returns early without error,
and the caller hook stage, caveat stage and success confirmation are all
skipped (the trace ends at the `git init` invocation and contains no hook
run); any other version-control-init failure is raised from `create`. -/
theorem c1_git_tool_missing_returns_early (env : Env) (appName : String)
    (options : CreateOptions) (firstArg : String) (ge : JsError)
    (hargv : env.argv2 = some firstArg)
    (hdest : (destCheckStage env (projectDirOf env options firstArg)).2 = .next)
    (htpl : (templateCheckStage env (templateDirOf env options)).2 = .next)
    (hrender : (renderStage env (projectDirOf env options firstArg)
        (templateDirOf env options) (viewOf env options firstArg)).2 = .next)
    (hinstall : (installStage env (projectDirOf env options firstArg)
        (useYarnOf env)).2 = .next)
    (hskip : options.skipGit = false)
    (hgit : env.gitInit (projectDirOf env options firstArg) = .error ge) :
    (ge.exitCode = some 127 →
      (create env appName options).2 = Except.ok () ∧
      (create env appName options).1.getLast? =
        some (Effect.execaCall "git init" (projectDirOf env options firstArg)) ∧
      Effect.hookRun ∉ (create env appName options).1) ∧
    (ge.exitCode ≠ some 127 →
      (create env appName options).2 = Except.error ge) := by
  have hlic := licenseStage_snd env options.skipLicense
    ((jsGet (argsOf env options) "license").getD .undefined)
    (licenseArgsOf env options firstArg) (projectDirOf env options firstArg)
  constructor
  · intro h127
    have hgs : gitStage env options.skipGit (projectDirOf env options firstArg) =
        ([Effect.execaCall "git init" (projectDirOf env options firstArg)],
          .stop) := by
      simp [gitStage, hskip, hgit, h127]
    have hcr : ∃ t, create env appName options =
        (t ++ [Effect.execaCall "git init" (projectDirOf env options firstArg)],
          Except.ok ()) ∧ Effect.hookRun ∉ t := by
      refine ⟨[] ++ (announceStage (projectDirOf env options firstArg)).1 ++
        (destCheckStage env (projectDirOf env options firstArg)).1 ++
        (promptStage env options).1 ++
        (templateCheckStage env (templateDirOf env options)).1 ++
        (renderStage env (projectDirOf env options firstArg)
          (templateDirOf env options) (viewOf env options firstArg)).1 ++
        (licenseStage env options.skipLicense
          ((jsGet (argsOf env options) "license").getD .undefined)
          (licenseArgsOf env options firstArg)
          (projectDirOf env options firstArg)).1 ++
        (installStage env (projectDirOf env options firstArg) (useYarnOf env)).1,
        ?_, ?_⟩
      · simp only [create, hargv]
        unfold pipeline
        rw [foldl_seqF_step _ _ _ rfl, foldl_seqF_step _ _ _ hdest,
          foldl_seqF_step _ _ _ rfl, foldl_seqF_step _ _ _ htpl,
          foldl_seqF_step _ _ _ hrender, foldl_seqF_step _ _ _ hlic,
          foldl_seqF_step _ _ _ hinstall,
          foldl_seqF_stop _ _ _ (by rw [hgs]), hgs]
        rfl
      · simp [announceStage, promptStage, renderStage, destCheckStage_fst,
          templateCheckStage_fst, hookRun_not_mem_licenseStage,
          hookRun_not_mem_installStage]
    obtain ⟨t, hct, hnt⟩ := hcr
    refine ⟨by rw [hct], by rw [hct]; exact List.getLast?_concat _, ?_⟩
    rw [hct]
    simp [List.mem_append, hnt]
  · intro hne
    have hgs : gitStage env options.skipGit (projectDirOf env options firstArg) =
        ([Effect.execaCall "git init" (projectDirOf env options firstArg)],
          .fail ge) := by
      simp [gitStage, hskip, hgit, hne]
    simp only [create, hargv]
    unfold pipeline
    rw [foldl_seqF_step _ _ _ rfl, foldl_seqF_step _ _ _ hdest,
      foldl_seqF_step _ _ _ rfl, foldl_seqF_step _ _ _ htpl,
      foldl_seqF_step _ _ _ hrender, foldl_seqF_step _ _ _ hlic,
      foldl_seqF_step _ _ _ hinstall,
      foldl_seqF_fail _ _ _ _ (by rw [hgs])]
    simp [finish]

/-- C1 witness: the git-127 scenario resolves without error, its trace ends
at the `git init` call and contains no hook run. -/
theorem c1_witness :
    (create envGit127 "app" optsGit127).2 = Except.ok () ∧
    (create envGit127 "app" optsGit127).1.getLast? =
      some (Effect.execaCall "git init"
        (projectDirOf envGit127 optsGit127 "proj")) ∧
    Effect.hookRun ∉ (create envGit127 "app" optsGit127).1 :=
  (c1_git_tool_missing_returns_early envGit127 "app" optsGit127 "proj"
    { exitCode := some 127 } rfl (by decide) (by decide) (by decide)
    (by decide) rfl rfl).1 rfl

/-- C9: any error rejected by the caller-supplied after-hook propagates out
of `create` as that same error, and nothing at all happens afterward: the
trace ends at the hook run, so neither the success confirmation nor any
caveat is printed. -/
theorem c9_hook_error_propagates (env : Env) (appName : String)
    (options : CreateOptions) (firstArg : String) (e : JsError)
    (hargv : env.argv2 = some firstArg)
    (hdest : (destCheckStage env (projectDirOf env options firstArg)).2 = .next)
    (htpl : (templateCheckStage env (templateDirOf env options)).2 = .next)
    (hrender : (renderStage env (projectDirOf env options firstArg)
        (templateDirOf env options) (viewOf env options firstArg)).2 = .next)
    (hinstall : (installStage env (projectDirOf env options firstArg)
        (useYarnOf env)).2 = .next)
    (hgit : (gitStage env options.skipGit
        (projectDirOf env options firstArg)).2 = .next)
    (hafter : options.after = some (.error e)) :
    (create env appName options).2 = Except.error e ∧
    (create env appName options).1.getLast? = some Effect.hookRun := by
  have hlic := licenseStage_snd env options.skipLicense
    ((jsGet (argsOf env options) "license").getD .undefined)
    (licenseArgsOf env options firstArg) (projectDirOf env options firstArg)
  have hhs : hookStage options.after = ([Effect.hookRun], .fail e) := by
    simp [hookStage, hafter]
  have hcr : create env appName options =
      ([] ++ (announceStage (projectDirOf env options firstArg)).1 ++
        (destCheckStage env (projectDirOf env options firstArg)).1 ++
        (promptStage env options).1 ++
        (templateCheckStage env (templateDirOf env options)).1 ++
        (renderStage env (projectDirOf env options firstArg)
          (templateDirOf env options) (viewOf env options firstArg)).1 ++
        (licenseStage env options.skipLicense
          ((jsGet (argsOf env options) "license").getD .undefined)
          (licenseArgsOf env options firstArg)
          (projectDirOf env options firstArg)).1 ++
        (installStage env (projectDirOf env options firstArg) (useYarnOf env)).1 ++
        (gitStage env options.skipGit (projectDirOf env options firstArg)).1 ++
        [Effect.hookRun],
        Except.error e) := by
    simp only [create, hargv]
    unfold pipeline
    rw [foldl_seqF_step _ _ _ rfl, foldl_seqF_step _ _ _ hdest,
      foldl_seqF_step _ _ _ rfl, foldl_seqF_step _ _ _ htpl,
      foldl_seqF_step _ _ _ hrender, foldl_seqF_step _ _ _ hlic,
      foldl_seqF_step _ _ _ hinstall, foldl_seqF_step _ _ _ hgit,
      foldl_seqF_fail _ _ _ _ (by rw [hhs]), hhs]
    rfl
  rw [hcr]
  exact ⟨rfl, List.getLast?_concat _⟩

/-- C9 witness: a concrete hook rejecting with `boom` makes `create` reject
with that same error, the trace ending at the hook run. -/
theorem c9_witness :
    (create envHook "app" optsHookBoom).2 =
      Except.error { message := "boom" } ∧
    (create envHook "app" optsHookBoom).1.getLast? = some Effect.hookRun :=
  c9_hook_error_propagates envHook "app" optsHookBoom "proj"
    { message := "boom" } rfl (by decide) (by decide) (by decide) (by decide)
    (by decide) rfl

/-- C4 witness: a concrete non-empty destination directory. -/
theorem c4_witness :
    create
        { argv2 := some "proj", cwd := "/home",
          readdir := fun _ => .ok ["stale.txt"] }
        "app" { templateRoot := "/tpl" } =
      ([Effect.log "\nNew project will be created in /home/proj.\n"],
        Except.error { message := "/home/proj is not empty." }) := by
  rw [(c4_dest_not_empty_fails_early
    { argv2 := some "proj", cwd := "/home",
      readdir := fun _ => .ok ["stale.txt"] }
    "app" { templateRoot := "/tpl" } "proj" ["stale.txt"] rfl rfl
    (by decide)).1]
  decide

/-- C2 counterexample: the claim states that for every invocation of
`create` the schema handed to the prompt engine has prompt policy `never`
for description, author, email and license.  The caller-supplied `extra`
options are merged last and may override these entries: with
`extra = [("license", { prompt := always })]` the assembled schema's
`license` entry does not have policy `never`. -/
theorem c2_counterexample :
    ((jsGet (createSchema {}
        { templateRoot := "/tpl",
          extra := [("license", { prompt := some .always })] })
        "license").map (fun d => d.prompt)) ≠ some (some Prompt.never) := by
  decide

/-- C2 amended: for every invocation of `create` whose `extra` options do
not override description, author, email or license, the option schema
handed to the prompt engine has prompt policy `never` for all four of these
options, regardless of the caller's `skipLicense` flag (the orchestrator
always passes the literal `true` for the assembler's skip-license-prompts
parameter). -/
theorem c2_license_prompts_never (env : Env) (options : CreateOptions)
    (hex : ∀ p ∈ options.extra, p.1 ≠ "description" ∧ p.1 ≠ "author" ∧
      p.1 ≠ "email" ∧ p.1 ≠ "license") :
    ((jsGet (createSchema env options) "description").map (fun d => d.prompt) =
      some (some Prompt.never)) ∧
    ((jsGet (createSchema env options) "author").map (fun d => d.prompt) =
      some (some Prompt.never)) ∧
    ((jsGet (createSchema env options) "email").map (fun d => d.prompt) =
      some (some Prompt.never)) ∧
    ((jsGet (createSchema env options) "license").map (fun d => d.prompt) =
      some (some Prompt.never)) := by
  have hx1 : ∀ p ∈ options.extra, p.1 ≠ "description" := fun p hp => (hex p hp).1
  have hx2 : ∀ p ∈ options.extra, p.1 ≠ "author" := fun p hp => (hex p hp).2.1
  have hx3 : ∀ p ∈ options.extra, p.1 ≠ "email" := fun p hp => (hex p hp).2.2.1
  have hx4 : ∀ p ∈ options.extra, p.1 ≠ "license" := fun p hp => (hex p hp).2.2.2
  simp only [createSchema, getYargsOptions]
  rw [jsGet_append_nomatch _ _ _ hx1, jsGet_append_nomatch _ _ _ hx2,
    jsGet_append_nomatch _ _ _ hx3, jsGet_append_nomatch _ _ _ hx4]
  exact ⟨rfl, rfl, rfl, rfl⟩

/-- C2 witness: with no extra options, all four descriptive options have
policy `never` even though `skipLicense` is left `false`. -/
theorem c2_witness :
    ((jsGet (createSchema {} { templateRoot := "/tpl" }) "license").map
      (fun d => d.prompt)) = some (some Prompt.never) :=
  (c2_license_prompts_never {} { templateRoot := "/tpl" } (by simp)).2.2.2

/-- C8 counterexample: the claim states that with exactly one available
template the `template` prompt policy in the assembled schema is `never`
regardless of `promptForTemplate`.  An `extra` entry overriding `template`
is merged last: with one available template and
`extra = [("template", { prompt := ifNoArg })]` the assembled policy is not
`never`. -/
theorem c8_counterexample :
    ((jsGet (getYargsOptions
        { getAvailableTemplates := fun _ _ => ["only"] } "/tpl" "" false
        "default" true [("template", { prompt := some .ifNoArg })])
        "template").map (fun d => d.prompt)) ≠ some (some Prompt.never) := by
  decide

/-- C8 amended: provided the caller-supplied extra options do not override
`template`, the `template` prompt policy of the assembled schema is
`if-no-arg` exactly when more than one template is available and the caller
opted in to prompting, and with one (or zero) available templates it is
`never` regardless of `promptForTemplate`. -/
theorem c8_template_prompt_policy (env : Env) (templateRoot : String)
    ( templatePrefix : String) (promptForTemplate skipLicense : Bool)
    (defaultTemplate : String) (extra : List (String × OptionData))
    (hex : ∀ p ∈ extra, p.1 ≠ "template") :
    (((jsGet (getYargsOptions env templateRoot templatePrefix promptForTemplate
        defaultTemplate skipLicense extra) "template").map (fun d => d.prompt) =
      some (some Prompt.ifNoArg)) ↔
      (1 < (env.getAvailableTemplates templateRoot templatePrefix).length ∧
        promptForTemplate = true)) ∧
    ((env.getAvailableTemplates templateRoot templatePrefix).length ≤ 1 →
      (jsGet (getYargsOptions env templateRoot templatePrefix promptForTemplate
        defaultTemplate skipLicense extra) "template").map (fun d => d.prompt) =
        some (some Prompt.never)) := by
  have hbase : (jsGet (getYargsOptions env templateRoot templatePrefix
      promptForTemplate defaultTemplate skipLicense extra) "template").map
        (fun d => d.prompt) =
      some (some (if decide
          ((env.getAvailableTemplates templateRoot templatePrefix).length > 1) &&
          promptForTemplate then Prompt.ifNoArg else Prompt.never)) := by
    simp only [getYargsOptions]
    rw [jsGet_append_nomatch _ _ _ hex]
    rfl
  rw [hbase]
  by_cases hlen : 1 < (env.getAvailableTemplates templateRoot templatePrefix).length <;>
    cases promptForTemplate <;> simp [hlen]

/-- C8 witness: two available templates with prompting opted in give policy
`if-no-arg`. -/
theorem c8_witness :
    ((jsGet (getYargsOptions { getAvailableTemplates := fun _ _ => ["a", "b"] }
        "/tpl" "" true "default" true []) "template").map (fun d => d.prompt)) =
      some (some Prompt.ifNoArg) :=
  (c8_template_prompt_policy { getAvailableTemplates := fun _ _ => ["a", "b"] }
    "/tpl" "" true true "default" [] (by simp)).1.mpr ⟨by decide, rfl⟩

/-- C3 counterexample: the claim states the view excludes exactly
`interactive`, `template` and keys beginning with `$` or `_`, every other
resolved key appearing with its resolved value unchanged.  At an answer set
containing the resolved keys `""` and `"name"` (value `"foo"`), with derived
project name `"bar"`: the empty key is excluded as well (the regex requires
a first character), and the view maps `"name"` to the attached derived name
`"bar"`, not to its resolved value `"foo"`. -/
theorem c3_counterexample :
    jsGet (buildView [("", JsValue.str "e"), ("name", JsValue.str "foo")]
      "bar" 2026 "c") "" = none ∧
    jsGet (buildView [("", JsValue.str "e"), ("name", JsValue.str "foo")]
      "bar" 2026 "c") "name" ≠ some (JsValue.str "foo") := by
  decide

/-- C3 amended: the view passed to the renderer maps the attached keys
`name`, `year` and `contact` to the derived values (overriding any resolved
values of those names); every other key is absent exactly when it is
`interactive`, `template`, or fails the leading-character test (first
character `$` or `_`, or the empty key), and is otherwise mapped to its
resolved value unchanged. -/
theorem c3_view_characterization (args : List (String × JsValue))
    (name : String) (year : Int) (contact : String) :
    (jsGet (buildView args name year contact) "name" = some (.str name) ∧
     jsGet (buildView args name year contact) "year" = some (.num year) ∧
     jsGet (buildView args name year contact) "contact" = some (.str contact)) ∧
    (∀ k : String, k ≠ "name" → k ≠ "year" → k ≠ "contact" →
      jsGet (buildView args name year contact) k =
        if jsRegexTest k &&
            !((["interactive", "template"] : List String).contains k)
        then jsGet args k else none) := by
  constructor
  · refine ⟨?_, ?_, ?_⟩ <;>
    · unfold buildView jsGet
      rw [List.reverse_append, List.find?_append]
      rfl
  · intro k h1 h2 h3
    unfold buildView
    rw [jsGet_append_nomatch _ _ _ ?hne]
    case hne =>
      intro p hp
      simp only [List.mem_cons, List.not_mem_nil, or_false] at hp
      rcases hp with rfl | rfl | rfl
      · exact Ne.symm h1
      · exact Ne.symm h2
      · exact Ne.symm h3
    exact jsGet_filter
      (fun s => jsRegexTest s &&
        !((["interactive", "template"] : List String).contains s)) args k

/-- C3 witness: an ordinary resolved key (`license`) appears verbatim in the
view while an underscore key is dropped. -/
theorem c3_witness :
    jsGet (buildView [("license", JsValue.str "MIT"), ("_pos", JsValue.str "x")]
      "n" 2026 "c") "license" = some (JsValue.str "MIT") := by
  rw [(c3_view_characterization
    [("license", JsValue.str "MIT"), ("_pos", JsValue.str "x")] "n" 2026 "c").2
    "license" (by decide) (by decide) (by decide)]
  decide

end CreateInitializer
